import Mathlib

/-!
Shallow embedding of the ride-hailing backend (`src/main.py`, `src/schemas.py`).

The store is MongoDB; each collection is modelled as a list of records in
insertion order.  `update_one` updates the first matching document and
reports whether a document matched; `find_one` returns the first matching
document; `find().sort("created_at", -1).limit(20)` is modelled by a
descending insertion sort followed by `take`.  Timestamps are natural
numbers supplied by the caller (`now`); geographic coordinates are opaque
payload here (no arithmetic is ever performed on them), modelled as `Int`.
HTTPException outcomes are modelled by `ApiError`.
-/

namespace BikeTaxi

/-- Error taxonomy of the endpoints: 400 "Invalid ride id", 404 "Ride not
found", 400 "Invalid status" in `src/main.py`. -/
inductive ApiError where
  | InvalidId
  | NotFound
  | InvalidStatus
  deriving DecidableEq, Repr

/-- A `User` document (`src/schemas.py`, class `User`) together with its
store-assigned `_id` (exposed as `id`). -/
structure UserRec where
  id : String
  name : String
  role : String
  phone : Option String
  is_active : Bool
  deriving DecidableEq, Repr

/-- A `DriverStatus` document (`src/schemas.py`, class `DriverStatus`)
together with its store-assigned id and store-kept timestamps. -/
structure DriverStatusRec where
  id : String
  user_id : String
  is_available : Bool
  lat : Option Int
  lng : Option Int
  created_at : Nat
  updated_at : Nat
  deriving DecidableEq, Repr

/-- A `Ride` document (`src/schemas.py`, class `Ride`) together with its
store-assigned id and store-kept timestamps. -/
structure RideRec where
  id : String
  rider_id : String
  pickup : String
  dropoff : String
  status : String
  driver_id : Option String
  fare_estimate : Option Int
  created_at : Nat
  updated_at : Nat
  deriving DecidableEq, Repr

/-- The three collections of the store plus the state of the id generator.
`database.py` is not part of `src/`; per the spec the Entity Store persists
records partitioned by kind and generates unique identifiers. -/
structure DB where
  users : List UserRec
  rides : List RideRec
  driverstatus : List DriverStatusRec
  nextId : Nat
  deriving DecidableEq, Repr

/-- `bson.ObjectId(s)` accepts exactly a 24-character hexadecimal string. -/
def isHexChar (c : Char) : Bool :=
  c.isDigit || (Char.ofNat 97 ≤ c && c ≤ Char.ofNat 102) ||
    (Char.ofNat 65 ≤ c && c ≤ Char.ofNat 70)

/-- Validity of a caller-supplied id: `ObjectId(ride_id)` succeeds iff the
string is 24 hex characters. -/
def isValidObjectId (s : String) : Bool :=
  s.length == 24 && s.toList.all isHexChar

/-- Modelled from the spec: `create_document` lives in `database.py`, which
is not under `src/`; per §4.1 the Entity Store "assigns a new unique id".
The generator is modelled as an injective function of the store's counter. -/
def genId (n : Nat) : String :=
  "oid" ++ toString n

/-- The closed status enum checked by `update_ride_status`
(`src/main.py` line 161). -/
def rideStatuses : List String :=
  ["requested", "accepted", "picked_up", "completed", "cancelled"]

/-- Mongo `update_one`: apply `f` to the first element satisfying `p`,
leave everything else unchanged (no element matched ↦ no write). -/
def updateFirst (p : α → Bool) (f : α → α) : List α → List α
  | [] => []
  | x :: xs => if p x then f x :: xs else x :: updateFirst p f xs

/-- Look a ride up by id (`_id` is a unique key; the first match is the
match). -/
def findRide (db : DB) (rid : String) : Option RideRec :=
  db.rides.find? (fun r => r.id == rid)

/-- `POST /api/rides` (`request_ride`, `src/main.py` lines 105-116): build a
`Ride` with the given rider/pickup/dropoff and status "requested"
(`driver_id`, `fare_estimate` defaulting to `None`) and store it.
`create_document` (not under `src/`) is modelled from the spec: it assigns
a fresh id and sets the timestamp fields, and the endpoint returns the id. -/
def request_ride (now : Nat) (db : DB) (rider_id pickup dropoff : String) :
    DB × String :=
  let rid := genId db.nextId
  ({ db with
      nextId := db.nextId + 1,
      rides := db.rides ++
        [{ id := rid, rider_id := rider_id, pickup := pickup,
           dropoff := dropoff, status := "requested", driver_id := none,
           fare_estimate := none, created_at := now, updated_at := now }] },
   rid)

/-- Ordering used by `list_rides`: `sort("created_at", -1)`, newest first. -/
def newerFirst (a b : RideRec) : Prop :=
  b.created_at ≤ a.created_at

instance : DecidableRel newerFirst :=
  fun a b => Nat.decLe b.created_at a.created_at

instance : IsTotal RideRec newerFirst :=
  ⟨fun a b => Nat.le_total b.created_at a.created_at⟩

instance : IsTrans RideRec newerFirst :=
  ⟨fun _ _ _ h1 h2 => Nat.le_trans h2 h1⟩

/-- The Mongo filter built by `list_rides` (`src/main.py` lines 123-125):
`filter_q` gains a `rider_id` key only when the parameter is truthy, so
both `None` and `""` leave the filter empty. -/
def riderFilter (rider_id : Option String) : RideRec → Bool :=
  fun r =>
    match rider_id with
    | none => true
    | some rid => if rid = "" then true else r.rider_id == rid

/-- `GET /api/rides` (`list_rides`, `src/main.py` lines 119-127): filter,
sort by `created_at` descending, truncate to 20. -/
def list_rides (db : DB) (rider_id : Option String) : List RideRec :=
  (((db.rides.filter (riderFilter rider_id)).insertionSort newerFirst).take 20)

/-- `POST /api/rides/\x7bride_id\x7d/assign` (`assign_driver`, `src/main.py`
lines 134-146): reject a malformed id before touching the store, then
`update_one` setting `driver_id`, `status := "accepted"` and `updated_at`;
`matched_count == 0` ↦ 404. -/
def assign_driver (now : Nat) (db : DB) (ride_id driver_id : String) :
    DB × Except ApiError Unit :=
  if isValidObjectId ride_id then
    match db.rides.find? (fun r => r.id == ride_id) with
    | none => (db, .error .NotFound)
    | some _ =>
        ({ db with
            rides := updateFirst (fun r => r.id == ride_id)
              (fun r => { r with driver_id := some driver_id,
                                 status := "accepted", updated_at := now })
              db.rides },
         .ok ())
  else (db, .error .InvalidId)

/-- `POST /api/rides/\x7bride_id\x7d/status` (`update_ride_status`,
`src/main.py` lines 153-166): reject a malformed id first, then a status
outside the five-value enum, then `update_one` overwriting `status` and
`updated_at` unconditionally; `matched_count == 0` ↦ 404. -/
def update_ride_status (now : Nat) (db : DB) (ride_id stat : String) :
    DB × Except ApiError Unit :=
  if isValidObjectId ride_id then
    if rideStatuses.contains stat then
      match db.rides.find? (fun r => r.id == ride_id) with
      | none => (db, .error .NotFound)
      | some _ =>
          ({ db with
              rides := updateFirst (fun r => r.id == ride_id)
                (fun r => { r with status := stat, updated_at := now })
                db.rides },
           .ok ())
    else (db, .error .InvalidStatus)
  else (db, .error .InvalidId)

/-- `POST /api/driver/status` (`update_driver_status`, `src/main.py`
lines 176-187): `find_one` an existing record by `user_id`; if found,
`update_one` by its `_id` with the payload minus `user_id` (so only
`is_available`, `lat`, `lng` and the refreshed `updated_at` are written);
otherwise create a new record with that `user_id` (`create_document`, not
under `src/`, modelled from the spec: fresh id, timestamps set). -/
def update_driver_status (now : Nat) (db : DB) (user_id : String)
    (is_available : Bool) (lat lng : Option Int) : DB :=
  match db.driverstatus.find? (fun s => s.user_id == user_id) with
  | some existing =>
      { db with
          driverstatus := updateFirst (fun s => s.id == existing.id)
            (fun s => { s with is_available := is_available, lat := lat,
                               lng := lng, updated_at := now })
            db.driverstatus }
  | none =>
      { db with
          nextId := db.nextId + 1,
          driverstatus := db.driverstatus ++
            [{ id := genId db.nextId, user_id := user_id,
               is_available := is_available, lat := lat, lng := lng,
               created_at := now, updated_at := now }] }

/-- The attached status dict in `list_available_drivers`: all fields of the
`DriverStatus` document except the Mongo `_id`. -/
structure StatusView where
  user_id : String
  is_available : Bool
  lat : Option Int
  lng : Option Int
  created_at : Nat
  updated_at : Nat
  deriving DecidableEq, Repr

/-- Drop the `_id` field, as `\x7bk: v for k, v in status.items() if k != "_id"\x7d`
does (`src/main.py` line 94). -/
def DriverStatusRec.view (s : DriverStatusRec) : StatusView :=
  { user_id := s.user_id, is_available := s.is_available, lat := s.lat,
    lng := s.lng, created_at := s.created_at, updated_at := s.updated_at }

/-- One entry of the `GET /api/drivers` response: the user profile plus the
attached status (or `none`). -/
structure DriverProfile where
  user : UserRec
  status : Option StatusView
  deriving DecidableEq, Repr

/-- `GET /api/drivers` (`list_available_drivers`, `src/main.py` lines
85-96): all users with `role = "driver"` and `is_active = true`, each with
the `find_one` result on `driverstatus` by `user_id` attached. -/
def list_available_drivers (db : DB) : List DriverProfile :=
  (db.users.filter (fun u => u.role == "driver" && u.is_active)).map
    (fun u =>
      { user := u,
        status := (db.driverstatus.find? (fun s => s.user_id == u.id)).map
          DriverStatusRec.view })

/-- Pick the later-updated of two status records. -/
def moreRecent (a b : DriverStatusRec) : DriverStatusRec :=
  if a.updated_at < b.updated_at then b else a

/-- Modelled from the spec: "the most recent DriverStatus for that user's
id (null if none reported yet)" — the record for `u` with the greatest
`updated_at`, used to compare the endpoint's `find_one` join against the
spec's wording. -/
def mostRecentStatus (l : List DriverStatusRec) (u : String) :
    Option DriverStatusRec :=
  match l.filter (fun s => s.user_id == u) with
  | [] => none
  | x :: xs => some (xs.foldl moreRecent x)

/-- The spec's DriverStatus invariant (§3): at most one record per
`user_id`. -/
def atMostOnePerUser (l : List DriverStatusRec) : Prop :=
  l.Pairwise (fun a b => a.user_id ≠ b.user_id)

/-! ### Helper lemmas about `updateFirst` and `find?` -/

theorem updateFirst_length (p : α → Bool) (f : α → α) (l : List α) :
    (updateFirst p f l).length = l.length := by
  induction l with
  | nil => rfl
  | cons x xs ih =>
      by_cases hx : p x = true <;> simp [updateFirst, hx, ih]

theorem updateFirst_getElem? (p : α → Bool) (f : α → α) (l : List α)
    (i : Nat) :
    (updateFirst p f l)[i]? = l[i]? ∨
      (updateFirst p f l)[i]? = l[i]?.map f := by
  induction l generalizing i with
  | nil => left; rfl
  | cons x xs ih =>
      by_cases hx : p x = true
      · cases i with
        | zero => right; simp [updateFirst, hx]
        | succ j => left; simp [updateFirst, hx]
      · cases i with
        | zero => left; simp [updateFirst, hx]
        | succ j =>
            rcases ih j with h | h
            · left; simpa [updateFirst, hx] using h
            · right; simpa [updateFirst, hx] using h

theorem updateFirst_countP (p q : α → Bool) (f : α → α)
    (hq : ∀ a, q (f a) = q a) (l : List α) :
    (updateFirst p f l).countP q = l.countP q := by
  induction l with
  | nil => rfl
  | cons x xs ih =>
      by_cases hx : p x = true <;>
        simp [updateFirst, hx, List.countP_cons, ih, hq]

theorem updateFirst_find? (p : α → Bool) (f : α → α)
    (hpf : ∀ a, p a = true → p (f a) = true) (l : List α) :
    (updateFirst p f l).find? p = (l.find? p).map f := by
  induction l with
  | nil => rfl
  | cons x xs ih =>
      by_cases hx : p x = true
      · simp [updateFirst, hx, List.find?_cons, hpf x hx]
      · simp [updateFirst, hx, List.find?_cons, ih]

theorem updateFirst_append_no_match (p : α → Bool) (f : α → α)
    (l₁ l₂ : List α) (h : ∀ a ∈ l₁, p a = false) :
    updateFirst p f (l₁ ++ l₂) = l₁ ++ updateFirst p f l₂ := by
  induction l₁ with
  | nil => rfl
  | cons x xs ih =>
      have hx : p x = false := h x (List.mem_cons_self x xs)
      simp [updateFirst, hx, ih fun a ha => h a (List.mem_cons_of_mem x ha)]

theorem find?_eq_head?_filter (p : α → Bool) (l : List α) :
    l.find? p = (l.filter p).head? := by
  induction l with
  | nil => rfl
  | cons x xs ih =>
      by_cases hx : p x = true
      · rw [List.find?_cons_of_pos _ hx, List.filter_cons_of_pos hx]
        rfl
      · rw [List.find?_cons_of_neg _ hx, List.filter_cons_of_neg hx, ih]

theorem filter_length_le_one_of_atMostOne (l : List DriverStatusRec)
    (h : atMostOnePerUser l) (u : String) :
    (l.filter (fun s => s.user_id == u)).length ≤ 1 := by
  induction l with
  | nil => simp
  | cons a tl ih =>
      rw [atMostOnePerUser, List.pairwise_cons] at h
      obtain ⟨ha, htl⟩ := h
      by_cases hau : (a.user_id == u) = true
      · have hnil : tl.filter (fun s => s.user_id == u) = [] := by
          refine List.filter_eq_nil_iff.mpr fun b hb hbu => ?_
          exact ha b hb (by
            have h1 : a.user_id = u := by simpa using hau
            have h2 : b.user_id = u := by simpa using hbu
            rw [h1, h2])
        simp [List.filter_cons, hau, hnil]
      · simpa [List.filter_cons, hau] using ih htl

/-! ### Concrete fixtures -/

/-- A well-formed ObjectId (24 hex characters). -/
def oidA : String := "aaaaaaaaaaaaaaaaaaaaaaaa"

/-- A ride in the terminal state "completed", stored under `oidA`. -/
def rideT : RideRec :=
  { id := oidA, rider_id := "r1", pickup := "A", dropoff := "B",
    status := "completed", driver_id := some "d1", fare_estimate := none,
    created_at := 5, updated_at := 5 }

/-- A store holding exactly the ride `rideT`. -/
def dbT : DB :=
  { users := [], rides := [rideT], driverstatus := [], nextId := 3 }

/-! ### Shared facts about the ride endpoints -/

/-- With a well-formed id, a status inside the enum and a matching ride,
`update_ride_status` succeeds and overwrites the ride's status — for any
prior status. -/
theorem set_status_overwrite (now : Nat) (db : DB) (rid stat : String)
    (r : RideRec) (hid : isValidObjectId rid = true)
    (hstat : rideStatuses.contains stat = true)
    (hr : findRide db rid = some r) :
    (update_ride_status now db rid stat).snd = Except.ok () ∧
    findRide (update_ride_status now db rid stat).fst rid =
      some { r with status := stat, updated_at := now } := by
  have hfind : db.rides.find? (fun x => x.id == rid) = some r := hr
  have hpres : ∀ a : RideRec, (a.id == rid) = true →
      ((({ a with status := stat, updated_at := now } : RideRec)).id == rid)
        = true := fun _ ha => ha
  have hmem : stat ∈ rideStatuses := by simpa using hstat
  constructor
  · simp [update_ride_status, hid, hmem, hfind]
  · simp only [update_ride_status, hid, hstat, hfind, if_true]
    simp only [findRide]
    rw [updateFirst_find? _ _ hpres, hfind]
    rfl

/-- With a well-formed id and a matching ride, `assign_driver` succeeds,
sets the driver and forces the status to "accepted" — for any prior
status. -/
theorem assign_driver_overwrite (now : Nat) (db : DB) (rid d : String)
    (r : RideRec) (hid : isValidObjectId rid = true)
    (hr : findRide db rid = some r) :
    (assign_driver now db rid d).snd = Except.ok () ∧
    findRide (assign_driver now db rid d).fst rid =
      some { r with driver_id := some d, status := "accepted",
                    updated_at := now } := by
  have hfind : db.rides.find? (fun x => x.id == rid) = some r := hr
  have hpres : ∀ a : RideRec, (a.id == rid) = true →
      ((({ a with driver_id := some d, status := "accepted",
                  updated_at := now } : RideRec)).id == rid) = true :=
    fun _ ha => ha
  constructor
  · simp [assign_driver, hid, hfind]
  · simp only [assign_driver, hid, hfind, if_true]
    simp only [findRide]
    rw [updateFirst_find? _ _ hpres, hfind]
    rfl

/-! ### Claims -/

/-- C1 (counterexample): the claim says that for every ride id and status
string, a status outside the enum makes `set_status` fail with
`InvalidStatus`.  On the malformed id "zzz" with the out-of-enum status
"bogus" the code instead fails with `InvalidId` (the id check precedes the
status check), so the universal claim is false. -/
theorem set_status_invalid_status_cex :
    rideStatuses.contains "bogus" = false ∧
    update_ride_status 7 dbT "zzz" "bogus" =
      (dbT, Except.error ApiError.InvalidId) ∧
    (Except.error ApiError.InvalidId : Except ApiError Unit) ≠
      Except.error ApiError.InvalidStatus :=
  ⟨by decide, rfl, fun h => ApiError.noConfusion (Except.error.inj h)⟩

/-- C1 (amended): when the ride id is well formed, `set_status` fails with
`InvalidStatus` exactly when the status is outside the five-value enum and
then leaves the store (hence every ride's status) unchanged; when the
status is in the enum and the ride exists, it overwrites the ride's status
with the supplied value unconditionally — no transition check, the prior
status `r.status` is unconstrained.  (A malformed id fails with
`InvalidId` before the status check, which is what the counterexample
exhibits.) -/
theorem set_status_spec (now : Nat) (db : DB) (rid stat : String)
    (hid : isValidObjectId rid = true) :
    (rideStatuses.contains stat = false →
      update_ride_status now db rid stat =
        (db, Except.error ApiError.InvalidStatus)) ∧
    (∀ r : RideRec, rideStatuses.contains stat = true →
      findRide db rid = some r →
      (update_ride_status now db rid stat).snd = Except.ok () ∧
      findRide (update_ride_status now db rid stat).fst rid =
        some { r with status := stat, updated_at := now }) := by
  constructor
  · intro hstat
    have hmem : stat ∉ rideStatuses := by simpa using hstat
    simp [update_ride_status, hid, hmem]
  · intro r hstat hr
    exact set_status_overwrite now db rid stat r hid hstat hr

/-- C1 witness: on the concrete store `dbT`, a well-formed id and the
out-of-enum status "bogus" yield `InvalidStatus` with the store unchanged,
and the in-enum status "picked_up" overwrites the stored ride. -/
theorem set_status_spec_witness :
    (update_ride_status 7 dbT oidA "bogus" =
      (dbT, Except.error ApiError.InvalidStatus)) ∧
    findRide (update_ride_status 7 dbT oidA "picked_up").fst oidA =
      some { rideT with status := "picked_up", updated_at := 7 } := by
  refine ⟨(set_status_spec 7 dbT oidA "bogus" (by decide)).1 (by decide),
    ((set_status_spec 7 dbT oidA "picked_up" (by decide)).2 rideT
      (by decide) (by decide)).2⟩

/-- C2: `assign_driver` rejects a malformed id with `InvalidId` without
consulting the store (the result is the same for every store state and the
store is left unchanged); with a well-formed id it fails with `NotFound`
when no ride matches, and otherwise sets `driver_id` and forces the status
to "accepted" regardless of the ride's prior status. -/
theorem assign_driver_spec (now : Nat) (db : DB) (rid d : String) :
    (isValidObjectId rid = false →
      assign_driver now db rid d = (db, Except.error ApiError.InvalidId)) ∧
    (isValidObjectId rid = true → findRide db rid = none →
      assign_driver now db rid d = (db, Except.error ApiError.NotFound)) ∧
    (∀ r : RideRec, isValidObjectId rid = true → findRide db rid = some r →
      (assign_driver now db rid d).snd = Except.ok () ∧
      findRide (assign_driver now db rid d).fst rid =
        some { r with driver_id := some d, status := "accepted",
                      updated_at := now }) := by
  refine ⟨fun hid => ?_, fun hid hnone => ?_, fun r hid hr =>
    assign_driver_overwrite now db rid d r hid hr⟩
  · simp [assign_driver, hid]
  · have hfind : db.rides.find? (fun x => x.id == rid) = none := hnone
    simp [assign_driver, hid, hfind]

/-- C2 witness: on the store `dbT`, the malformed id "zzz" gives
`InvalidId`, a fresh well-formed id gives `NotFound`, and assigning to the
stored ride sets the driver and forces "accepted". -/
theorem assign_driver_spec_witness :
    assign_driver 8 dbT "zzz" "d9" = (dbT, Except.error ApiError.InvalidId) ∧
    assign_driver 8 dbT "bbbbbbbbbbbbbbbbbbbbbbbb" "d9" =
      (dbT, Except.error ApiError.NotFound) ∧
    findRide (assign_driver 8 dbT oidA "d9").fst oidA =
      some { rideT with driver_id := some "d9", status := "accepted",
                        updated_at := 8 } := by
  refine ⟨(assign_driver_spec 8 dbT "zzz" "d9").1 (by decide),
    (assign_driver_spec 8 dbT "bbbbbbbbbbbbbbbbbbbbbbbb" "d9").2.1
      (by decide) (by decide),
    ((assign_driver_spec 8 dbT oidA "d9").2.2 rideT (by decide)
      (by decide)).2⟩

/-- C3 (counterexample): the claim says a ride in a terminal state never
changes status again.  On the store `dbT`, whose only ride is "completed",
a subsequent `set_status(oidA, "requested")` succeeds and changes the
status to "requested". -/
theorem terminal_status_changed_cex :
    findRide dbT oidA = some rideT ∧
    rideT.status = "completed" ∧
    (findRide (update_ride_status 9 dbT oidA "requested").fst oidA).map
      RideRec.status = some "requested" := by
  decide

/-- C3 (amended): terminal states are not enforced.  For a ride whose
status is "completed" or "cancelled", a subsequent `set_status` with any
enum status overwrites its status, and a subsequent `assign_driver` forces
it to "accepted". -/
theorem terminal_not_enforced_spec (now : Nat) (db : DB)
    (rid stat d : String) (r : RideRec) (hid : isValidObjectId rid = true)
    (hr : findRide db rid = some r)
    (_hterm : r.status = "completed" ∨ r.status = "cancelled") :
    (rideStatuses.contains stat = true →
      findRide (update_ride_status now db rid stat).fst rid =
        some { r with status := stat, updated_at := now }) ∧
    findRide (assign_driver now db rid d).fst rid =
      some { r with driver_id := some d, status := "accepted",
                    updated_at := now } :=
  ⟨fun hstat => (set_status_overwrite now db rid stat r hid hstat hr).2,
   (assign_driver_overwrite now db rid d r hid hr).2⟩

/-- C3 amended-claim witness: on the concrete completed ride of `dbT`,
`set_status` to "picked_up" and `assign_driver` both change the terminal
status. -/
theorem terminal_not_enforced_witness :
    findRide (update_ride_status 9 dbT oidA "picked_up").fst oidA =
      some { rideT with status := "picked_up", updated_at := 9 } ∧
    findRide (assign_driver 9 dbT oidA "d2").fst oidA =
      some { rideT with driver_id := some "d2", status := "accepted",
                        updated_at := 9 } := by
  have h := terminal_not_enforced_spec 9 dbT oidA "picked_up" "d2" rideT
    (by decide) (by decide) (Or.inl (by decide))
  exact ⟨h.1 (by decide), h.2⟩

/-- An empty store. -/
def dbE : DB :=
  { users := [], rides := [], driverstatus := [], nextId := 0 }

/-- The create branch of the upsert: no record for the `user_id` exists,
so a fresh record is appended. -/
theorem update_driver_status_create (now : Nat) (db : DB) (u : String)
    (b : Bool) (lat lng : Option Int)
    (hnone : db.driverstatus.find? (fun s => s.user_id == u) = none) :
    (update_driver_status now db u b lat lng).driverstatus =
      db.driverstatus ++
        [{ id := genId db.nextId, user_id := u, is_available := b, lat := lat, lng := lng, created_at := now, updated_at := now }] := by
  simp [update_driver_status, hnone]

/-- The update branch of the upsert: a record for the `user_id` exists and
is rewritten in place by its id. -/
theorem update_driver_status_update (now : Nat) (db : DB) (u : String)
    (b : Bool) (lat lng : Option Int) (e : DriverStatusRec)
    (hsome : db.driverstatus.find? (fun s => s.user_id == u) = some e) :
    (update_driver_status now db u b lat lng).driverstatus =
      updateFirst (fun s => s.id == e.id)
        (fun s => { s with is_available := b, lat := lat, lng := lng, updated_at := now })
        db.driverstatus := by
  simp [update_driver_status, hsome]

/-- C4: the driver-status upsert under sequential calls.  First, it
preserves the at-most-one-record-per-`user_id` bound: a call for any
`user_id` `v` keeps the number of records for `u` at most one (the update
branch rewrites an existing record in place, the create branch only fires
when no record for `v` exists).  Second, starting from a store with no
record for `u` whose generator has not issued a colliding id, calling
`report_status(u, true, ...)` and then `report_status(u, false, ...)`
leaves exactly one record for `u`, and its `is_available` is `false`. -/
theorem report_status_upsert_spec :
    (∀ (now : Nat) (db : DB) (v u : String) (b : Bool) (lat lng : Option Int),
      db.driverstatus.countP (fun s => s.user_id == u) ≤ 1 →
      (update_driver_status now db v b lat lng).driverstatus.countP
        (fun s => s.user_id == u) ≤ 1) ∧
    (∀ (n1 n2 : Nat) (db : DB) (u : String) (l1 g1 l2 g2 : Option Int),
      db.driverstatus.countP (fun s => s.user_id == u) = 0 →
      (∀ s ∈ db.driverstatus, s.id ≠ genId db.nextId) →
      ∃ s : DriverStatusRec,
        (update_driver_status n2 (update_driver_status n1 db u true l1 g1)
            u false l2 g2).driverstatus.filter (fun t => t.user_id == u) =
          [s] ∧
        s.is_available = false ∧ s.user_id = u) := by
  constructor
  · intro now db v u b lat lng hle
    cases hfind : db.driverstatus.find? (fun s => s.user_id == v) with
    | some e =>
        have hcount := updateFirst_countP
          (fun s : DriverStatusRec => s.id == e.id)
          (fun s : DriverStatusRec => s.user_id == u)
          (fun s : DriverStatusRec => { s with is_available := b, lat := lat, lng := lng, updated_at := now })
          (fun _ => rfl) db.driverstatus
        rw [update_driver_status_update now db v b lat lng e hfind, hcount]
        exact hle
    | none =>
        rw [update_driver_status_create now db v b lat lng hfind,
          List.countP_append]
        by_cases hvu : v = u
        · subst hvu
          have hz : db.driverstatus.countP (fun s => s.user_id == v) = 0 :=
            List.countP_eq_zero.mpr fun s hs =>
              List.find?_eq_none.mp hfind s hs
          simp [hz, List.countP_cons]
        · have hvu2 : (v == u) = false := beq_eq_false_iff_ne.mpr hvu
          simpa [List.countP_cons, hvu2] using hle
  · intro n1 n2 db u l1 g1 l2 g2 hzero hfresh
    have hnone : db.driverstatus.find? (fun s => s.user_id == u) = none :=
      List.find?_eq_none.mpr fun s hs =>
        List.countP_eq_zero.mp hzero s hs
    have hfilnil : db.driverstatus.filter (fun s => s.user_id == u) = [] := by
      refine List.filter_eq_nil_iff.mpr fun s hs => ?_
      exact List.countP_eq_zero.mp hzero s hs
    have hstep1 := update_driver_status_create n1 db u true l1 g1 hnone
    have hfind2 : (update_driver_status n1 db u true l1 g1).driverstatus.find?
        (fun s => s.user_id == u) =
        some { id := genId db.nextId, user_id := u, is_available := true, lat := l1, lng := g1, created_at := n1, updated_at := n1 } := by
      rw [hstep1, List.find?_append, hnone]
      simp
    have hstep2 := update_driver_status_update n2
      (update_driver_status n1 db u true l1 g1) u false l2 g2 _ hfind2
    rw [hstep1, updateFirst_append_no_match _ _ _ _
      (fun a ha => beq_eq_false_iff_ne.mpr (hfresh a ha))] at hstep2
    refine ⟨{ id := genId db.nextId, user_id := u, is_available := false, lat := l2, lng := g2, created_at := n1, updated_at := n2 }, ?_, rfl, rfl⟩
    rw [hstep2, List.filter_append, hfilnil]
    simp [updateFirst]

/-- C4 witness: two sequential reports for "u7" on the empty store leave a
single record with `is_available = false`. -/
theorem report_status_upsert_witness :
    ∃ s : DriverStatusRec,
      (update_driver_status 2 (update_driver_status 1 dbE "u7" true none none)
          "u7" false none none).driverstatus.filter
        (fun t => t.user_id == "u7") = [s] ∧
      s.is_available = false ∧ s.user_id = "u7" :=
  report_status_upsert_spec.2 1 2 dbE "u7" none none none none
    (by decide) (by decide)

/-- An existing status record and a store holding only it. -/
def sD : DriverStatusRec :=
  { id := "s1", user_id := "u7", is_available := true, lat := none,
    lng := none, created_at := 0, updated_at := 0 }

/-- A store holding exactly the status record `sD`. -/
def dbD : DB :=
  { users := [], rides := [], driverstatus := [sD], nextId := 0 }

/-- C10: when `report_status` finds an existing record for the `user_id`,
the write is an in-place update: the collection keeps its length, every
record is either untouched or rewritten only in `is_available`, `lat`,
`lng` and `updated_at` (the `\x7b s with ... \x7d` update keeps `id` and
`user_id`), and in particular the per-index `(id, user_id)` pairs are
unchanged. -/
theorem report_status_frame_spec (now : Nat) (db : DB) (u : String)
    (b : Bool) (lat lng : Option Int) (e : DriverStatusRec)
    (hex : db.driverstatus.find? (fun s => s.user_id == u) = some e) :
    (update_driver_status now db u b lat lng).driverstatus.length =
      db.driverstatus.length ∧
    ∀ i : Nat,
      ((update_driver_status now db u b lat lng).driverstatus[i]? =
          db.driverstatus[i]? ∨
        (update_driver_status now db u b lat lng).driverstatus[i]? =
          db.driverstatus[i]?.map (fun s =>
            { s with is_available := b, lat := lat, lng := lng,
                     updated_at := now })) ∧
      ((update_driver_status now db u b lat lng).driverstatus[i]?).map
          (fun s => (s.id, s.user_id)) =
        (db.driverstatus[i]?).map (fun s => (s.id, s.user_id)) := by
  have hds : (update_driver_status now db u b lat lng).driverstatus =
      updateFirst (fun s => s.id == e.id)
        (fun s => { s with is_available := b, lat := lat, lng := lng,
                           updated_at := now }) db.driverstatus := by
    simp [update_driver_status, hex]
  refine ⟨by rw [hds]; exact updateFirst_length _ _ _, fun i => ?_⟩
  have hdis := updateFirst_getElem? (fun s : DriverStatusRec => s.id == e.id)
    (fun s => { s with is_available := b, lat := lat, lng := lng,
                       updated_at := now }) db.driverstatus i
  rw [hds]
  refine ⟨hdis, ?_⟩
  rcases hdis with h | h
  · rw [h]
  · rw [h]
    cases db.driverstatus[i]? with
    | none => rfl
    | some a => rfl

/-- C10 witness: updating the stored record `sD` keeps its `(id, user_id)`
pair at index 0. -/
theorem report_status_frame_witness :
    ((update_driver_status 4 dbD "u7" false none none).driverstatus[0]?).map
        (fun s => (s.id, s.user_id)) =
      (dbD.driverstatus[0]?).map (fun s => (s.id, s.user_id)) :=
  ((report_status_frame_spec 4 dbD "u7" false none none sD (by decide)).2 0).2

/-- C5: `list_available_drivers` returns exactly the users with
`role = "driver"` and `is_active = true`: every such stored user shows up
as the `user` of some returned profile, and every returned profile's user
is a stored active driver — in particular never a rider and never an
inactive user. -/
theorem list_drivers_spec (db : DB) :
    (∀ u ∈ db.users, u.role = "driver" → u.is_active = true →
      ∃ p ∈ list_available_drivers db, p.user = u) ∧
    (∀ p ∈ list_available_drivers db,
      p.user ∈ db.users ∧ p.user.role = "driver" ∧
      p.user.is_active = true ∧ p.user.role ≠ "rider") := by
  constructor
  · intro u hu hrole hact
    refine ⟨_, List.mem_map_of_mem _ (List.mem_filter.mpr ⟨hu, ?_⟩), rfl⟩
    simp [hrole, hact]
  · intro p hp
    obtain ⟨u, hu, rfl⟩ := List.mem_map.mp hp
    have h1 := List.mem_of_mem_filter hu
    have h2 := List.of_mem_filter hu
    simp only [Bool.and_eq_true, beq_iff_eq] at h2
    exact ⟨h1, h2.1, h2.2, by rw [h2.1]; decide⟩

/-- An active driver, an active rider, and a store holding both. -/
def uD : UserRec :=
  { id := "u1", name := "D", role := "driver", phone := none,
    is_active := true }

/-- An active rider. -/
def uR : UserRec :=
  { id := "u2", name := "R", role := "rider", phone := none,
    is_active := true }

/-- A store holding the users `uD` and `uR` and one status record for
`uD`. -/
def dbJ : DB :=
  { users := [uD, uR], rides := [],
    driverstatus := [{ id := "s2", user_id := "u1", is_available := true, lat := none, lng := none, created_at := 3, updated_at := 3 }],
    nextId := 0 }

/-- C5 witness: on the store `dbJ`, the driver `uD` appears in the
result. -/
theorem list_drivers_witness :
    ∃ p ∈ list_available_drivers dbJ, p.user = uD :=
  (list_drivers_spec dbJ).1 uD (by decide) rfl rfl

/-- C6: under the spec's at-most-one-record-per-`user_id` invariant, the
status attached to each returned driver is exactly the most recent
DriverStatus record for that driver's id (the endpoint's `find_one` is the
unique, hence most recent, record), and it is `none` when no record for
that driver exists. -/
theorem driver_status_join_spec (db : DB)
    (hone : atMostOnePerUser db.driverstatus) :
    ∀ p ∈ list_available_drivers db,
      p.status = (mostRecentStatus db.driverstatus p.user.id).map
        DriverStatusRec.view ∧
      (db.driverstatus.filter (fun s => s.user_id == p.user.id) = [] →
        p.status = none) := by
  intro p hp
  obtain ⟨u, _, rfl⟩ := List.mem_map.mp hp
  have hkey : db.driverstatus.find? (fun s => s.user_id == u.id) =
      mostRecentStatus db.driverstatus u.id := by
    rw [find?_eq_head?_filter, mostRecentStatus]
    have hlen := filter_length_le_one_of_atMostOne db.driverstatus hone u.id
    cases hfil : db.driverstatus.filter (fun s => s.user_id == u.id) with
    | nil => rfl
    | cons x xs =>
        rw [hfil] at hlen
        cases xs with
        | nil => rfl
        | cons y ys => simp at hlen
  constructor
  · show (db.driverstatus.find? (fun s => s.user_id == u.id)).map
        DriverStatusRec.view =
      (mostRecentStatus db.driverstatus u.id).map DriverStatusRec.view
    rw [hkey]
  · intro hfil
    show (db.driverstatus.find? (fun s => s.user_id == u.id)).map
        DriverStatusRec.view = none
    rw [find?_eq_head?_filter]
    have : db.driverstatus.filter (fun s => s.user_id == u.id) = [] := hfil
    rw [this]
    rfl

/-- C6 witness: on `dbJ`, the profile returned for `uD` carries exactly
the most recent (unique) status record for "u1". -/
theorem driver_status_join_witness :
    ({ user := uD, status := (dbJ.driverstatus.find? (fun s => s.user_id == uD.id)).map DriverStatusRec.view } : DriverProfile).status =
      (mostRecentStatus dbJ.driverstatus uD.id).map DriverStatusRec.view :=
  ((driver_status_join_spec dbJ (by unfold atMostOnePerUser; decide))
    ({ user := uD, status := (dbJ.driverstatus.find? (fun s => s.user_id == uD.id)).map DriverStatusRec.view })
    (by decide)).1

/-- C7: `list_rides` returns at most 20 rides, in non-increasing
`created_at` order (newest created first); with a non-empty `rider_id`
every returned ride carries that `rider_id`; with no `rider_id` no filter
is applied — the result is the first 20 of all rides sorted newest first;
and every returned ride comes from the store. -/
theorem list_rides_spec (db : DB) (rid : Option String) :
    (list_rides db rid).length ≤ 20 ∧
    (list_rides db rid).Sorted newerFirst ∧
    (∀ s, rid = some s → s ≠ "" →
      ∀ r ∈ list_rides db rid, r.rider_id = s) ∧
    (rid = none →
      list_rides db rid = (db.rides.insertionSort newerFirst).take 20) ∧
    (∀ r ∈ list_rides db rid, r ∈ db.rides) := by
  refine ⟨List.length_take_le 20 _, ?_, ?_, ?_, ?_⟩
  · exact (List.sorted_insertionSort newerFirst _).sublist
      (List.take_sublist 20 _)
  · intro s hs hne r hr
    subst hs
    have hmem : r ∈ (db.rides.filter (riderFilter (some s))).insertionSort
        newerFirst := List.mem_of_mem_take hr
    have hmem2 : r ∈ db.rides.filter (riderFilter (some s)) :=
      (List.perm_insertionSort newerFirst _).subset hmem
    have hfil := List.of_mem_filter hmem2
    simpa [riderFilter, hne] using hfil
  · intro h
    subst h
    rw [list_rides]
    have hfil : riderFilter none = fun _ => true := rfl
    rw [hfil, List.filter_true]
  · intro r hr
    have hmem : r ∈ (db.rides.filter (riderFilter rid)).insertionSort
        newerFirst := List.mem_of_mem_take hr
    exact List.mem_of_mem_filter
      ((List.perm_insertionSort newerFirst _).subset hmem)

/-- C7 witness: on the store `dbT`, the rider filter "r1", the length cap
and the unfiltered equation hold concretely. -/
theorem list_rides_spec_witness :
    (list_rides dbT (some "r1")).length ≤ 20 ∧
    (∀ r ∈ list_rides dbT (some "r1"), r.rider_id = "r1") ∧
    list_rides dbT none = (dbT.rides.insertionSort newerFirst).take 20 := by
  obtain ⟨h1, _, h3, _, _⟩ := list_rides_spec dbT (some "r1")
  obtain ⟨_, _, _, h4, _⟩ := list_rides_spec dbT none
  exact ⟨h1, fun r hr => h3 "r1" rfl (by decide) r hr, h4 rfl⟩

/-- C8: `create_ride` appends exactly one new ride, whose status is
"requested", whose `driver_id` is unset, whose rider/pickup/dropoff are
the given arguments, and returns that ride's generated id. -/
theorem create_ride_spec (now : Nat) (db : DB)
    (rider pickup dropoff : String) :
    ∃ r : RideRec,
      (request_ride now db rider pickup dropoff).fst.rides =
        db.rides ++ [r] ∧
      r.id = (request_ride now db rider pickup dropoff).snd ∧
      r.status = "requested" ∧ r.driver_id = none ∧
      r.rider_id = rider ∧ r.pickup = pickup ∧ r.dropoff = dropoff :=
  ⟨{ id := genId db.nextId, rider_id := rider, pickup := pickup, dropoff := dropoff, status := "requested", driver_id := none, fare_estimate := none, created_at := now, updated_at := now },
   rfl, rfl, rfl, rfl, rfl, rfl, rfl⟩

/-- C9: the empty string is falsy in `if rider_id:`, so
`list_rides(rider_id="")` builds the same (empty) Mongo filter as
`list_rides()` and the two calls return identical results. -/
theorem list_rides_empty_rider_spec (db : DB) :
    list_rides db (some "") = list_rides db none := by
  have h : riderFilter (some "") = riderFilter none := by
    funext r
    simp [riderFilter]
  rw [list_rides, list_rides, h]

end BikeTaxi
